import Mathlib

/-!
Shallow embedding of the Kubernetes debug-session orchestration code
(`DebugService`, `NodeDockerResolver`, `JavaDockerResolver`, `DockerClient`,
provider registry) for checking the design specification against the code.

Strings manipulated by the JavaScript/TypeScript source are modelled as
`List Char`; the helpers below reproduce the JavaScript string-method
semantics actually used by the source (`split("\n")`, `trim().split(/\s+/)`,
`split(/\s+/)` without trim, `lastIndexOf`, `substring`, array indexing
that yields `undefined` out of range, truthiness of `null`/`""`/`undefined`).
-/

/-- JavaScript `\s` character class, modelled as Unicode whitespace. -/
def isWs (c : Char) : Bool := c.isWhitespace

/-- JavaScript `s.split(sep)` splitting at every character satisfying `p`
(each separator character ends a field, empty fields kept):
the shape shared by `split("\n")` and by single-character separators. -/
def jsSplitBy (p : Char → Bool) : List Char → List (List Char)
  | [] => [[]]
  | c :: rest =>
    match jsSplitBy p rest with
    | [] => [[]]
    | cur :: parts => if p c then [] :: cur :: parts else (c :: cur) :: parts

/-- JavaScript `s.split(c)` for a one-character separator string. -/
def splitOnChar (c : Char) (cs : List Char) : List (List Char) :=
  jsSplitBy (fun x => x = c) cs

/-- The maximal non-whitespace runs of a string, in order (no empty runs). -/
def wsTokens (cs : List Char) : List (List Char) :=
  (jsSplitBy isWs cs).filter (fun t => t ≠ [])

/-- JavaScript `s.split(/\s+/)` WITHOUT a preceding `trim()`: whitespace runs
separate fields; a leading run contributes a leading empty field and a
trailing run a trailing empty field; `"".split(/\s+/)` is `[""]`. -/
def jsSplitWs (cs : List Char) : List (List Char) :=
  match cs with
  | [] => [[]]
  | c :: _ =>
    (if isWs c then [([] : List Char)] else [])
      ++ wsTokens cs
      ++ (if isWs (cs.getLastD c) then [[]] else [])

/-- JavaScript `s.trim()`. -/
def jsTrim (cs : List Char) : List Char :=
  ((cs.dropWhile isWs).reverse.dropWhile isWs).reverse

/-- JavaScript `s.trim().split(/\s+/)` as used by the resolvers'
process-table scan (`ps[i].trim().split(/\s+/)`). -/
def trimSplitWs (cs : List Char) : List (List Char) :=
  let t := jsTrim cs
  match t with
  | [] => [[]]
  | _ => wsTokens t

/-- JavaScript array indexing: out-of-range access yields `undefined`. -/
def jsIndex (l : List α) (i : Nat) : Option α := l.get? i

/-- JavaScript truthiness of a string-or-null/undefined value:
`null`, `undefined` and `""` are falsy. -/
def jsFalsy : Option (List Char) → Bool
  | none => true
  | some s => s = []

/-- JavaScript `lastIndexOf` for a single character, `none` when absent. -/
def lastIndexOfChar (c : Char) : List Char → Option Nat
  | [] => none
  | x :: rest =>
    match lastIndexOfChar c rest with
    | some i => some (i + 1)
    | none => if x = c then some 0 else none

/-- Case-sensitive literal: consume `pat` from the front, returning the rest. -/
def dropLit (pat : List Char) (cs : List Char) : Option (List Char) :=
  match pat, cs with
  | [], rest => some rest
  | _ :: _, [] => none
  | p :: ps, c :: rest => if c = p then dropLit ps rest else none

/-- Case-insensitive literal (JavaScript `i` flag): consume `pat` from the
front, returning the matched text and the rest. -/
def dropCi (pat : List Char) (cs : List Char) : Option (List Char × List Char)  :=
  match pat, cs with
  | [], rest => some ([], rest)
  | _ :: _, [] => none
  | p :: ps, c :: rest =>
    if c.toLower = p.toLower then
      match dropCi ps rest with
      | some (cap, rest2) => some (c :: cap, rest2)
      | none => none
    else none

/-- Regex `\s+`: requires at least one whitespace character, consumes the
whole run (equivalent to backtracking here: no pattern used after it can
begin with whitespace). -/
def wsPlus (cs : List Char) : Option (List Char) :=
  match cs with
  | c :: rest => if isWs c then some (rest.dropWhile isWs) else none
  | [] => none

example : jsSplitWs "  a  b ".data = ["".data, "a".data, "b".data, "".data] := by decide
example : jsSplitWs "".data = ["".data] := by decide
example : trimSplitWs "  root   1   0 ".data = ["root".data, "1".data, "0".data] := by decide
example : trimSplitWs "   ".data = ["".data] := by decide
example : splitOnChar ':' "a:b:c".data = ["a".data, "b".data, "c".data] := by decide
example : lastIndexOfChar '/' "a/b/c".data = some 3 := by decide
example : lastIndexOfChar '/' "abc".data = none := by decide

/-! ## Data model: `PortInfo` (src/debug/debugInterfaces.ts lines 6-9) -/

/-- `PortInfo { debug: string; app: string }`; both fields start as `null`
and are filled independently by a resolver (`none` = JavaScript `null`). -/
structure PortInfo where
  debug : Option (List Char)
  app : Option (List Char)
deriving DecidableEq

/-- Model of `Number.isInteger(Number(s))` on the strings that can reach the
orchestrator's app-port check (exposed-port literals, runtime default ports,
and unresolved placeholder tokens from the build file): true exactly for
nonempty decimal-digit runs. Exotic numeric forms (hex, exponent, signed or
whitespace-padded numbers) do not occur in that domain. -/
def numberIsIntegerStr (s : List Char) : Bool :=
  s ≠ [] && s.all (fun c => c.isDigit)

/-! ## Orchestrator port validation (`DebugService.launchDebug`, lines 49-56) -/

inductive LaunchGate where
  | abortNoDebugPort
  | abortNoAppPort
  | proceedToBuild
deriving DecidableEq

/-- Port-validation step of `DebugService.launchDebug`:
`if (!portInfo.debug) ... return;`
`if (!portInfo.app || !Number.isInteger(Number(portInfo.app))) ... return;`
otherwise the flow continues into build/deploy. -/
def launchPortValidation (portInfo : PortInfo) : LaunchGate :=
  if jsFalsy portInfo.debug then .abortNoDebugPort
  else if jsFalsy portInfo.app || !numberIsIntegerStr (portInfo.app.getD []) then
    .abortNoAppPort
  else .proceedToBuild

/-! ## Debugger-attach step of `DebugService.startDebug` (lines 394-401) -/

/-- A JavaScript value that is either a promise object or a plain boolean. -/
inductive JsValue where
  | promiseOf (eventual : Bool)
  | boolVal (b : Bool)

/-- JavaScript truthiness: a promise object is truthy regardless of the
value it eventually resolves to; a boolean is its own truth value. -/
def jsTruthyVal : JsValue → Bool
  | .promiseOf _ => true
  | .boolVal b => b

inductive AttachStepOutcome where
  | killedAndRejected
  | resolvedWithoutKill
deriving DecidableEq

/-- Attach step of the stdout handler in `DebugService.startDebug`:
`const success = this.debugProvider.startDebugging(workspaceFolder, sessionName, proxyDebugPort);`
stores the promise itself — the call is not awaited although
`IDebugProvider.startDebugging` returns `Promise<boolean>` — and
`if (!success) { proxyProcess.kill(); ...; reject(); return; } resolve();`
tests the truthiness of that promise object. `attachEventualResult` is the
boolean the provider's promise eventually resolves to. -/
def startDebugAttachStep (attachEventualResult : Bool) : AttachStepOutcome :=
  let success : JsValue := .promiseOf attachEventualResult
  if !jsTruthyVal success then .killedAndRejected else .resolvedWithoutKill

/-! ## `exec ... ps -ef` command construction (javaDockerResolver.ts line 62,
debugInterfaces.ts/nodeDockerResolver line 171) -/

/-- Command string built identically by `JavaDockerResolver.resolvePortsFromPod`
and `NodeDockerResolver.resolvePortsFromPod`:
`exec ${pod} ${container ? "-c ${selectedContainer}" : ""} -- ps -ef`
where the inner `"-c ${selectedContainer}"` is an ordinary quoted string,
not a template literal, so its dollar/brace/identifier characters are
emitted verbatim into the command. -/
def execPsCommand (pod : List Char) (container : Option (List Char)) : List Char :=
  "exec ".data ++ pod ++ " ".data
    ++ (if !jsFalsy container then "-c $\x7bselectedContainer\x7d".data else [])
    ++ " -- ps -ef".data

/-! ## Pod-readiness polling (`DebugService.waitForRunningPod`, lines 308-330) -/

/-- Result of one external command invocation (`ShellResult` of shell.ts). -/
structure ShellResult where
  code : Int
  stdout : List Char
  stderr : List Char

inductive PollAction where
  | terminated
  | continuePolling (delayMs : Nat)
  | fatal (diagnostic : List Char)
deriving DecidableEq

/-- Line 315: `const status = shellResult.stdout.split(/\s+/)[2];`
(the status column of `get pod/<name> --no-headers`; JavaScript yields
`undefined` when the output has fewer than three fields). -/
def podStatusOf (stdout : List Char) : Option (List Char) :=
  jsIndex (jsSplitWs stdout) 2

/-- The output-channel diagnostic of the fatal branch (lines 322-324): the
template literal ends with the pod logs, taken from
`logsResult.code === 0 ? logsResult.stdout : logsResult.stderr`. -/
def podFatalDiagnostic (podName : List Char) (status : Option (List Char))
    (logsResult : ShellResult) : List Char :=
  "Failed to start the pod \"".data ++ podName ++ "\", it's status is \"".data
    ++ status.getD "undefined".data
    ++ "\".\n\n                See more details from the pod logs:\n".data
    ++ (if logsResult.code = 0 then logsResult.stdout else logsResult.stderr)

/-- One iteration of `DebugService.waitForRunningPod` after a successful
status query (lines 315-329): `Running` returns; a status that is none of
`ContainerCreating`, `Pending`, `Succeeded` throws, after writing the
diagnostic carrying the pod logs; otherwise `await sleep(1000)` and the
method calls itself again. -/
def waitForRunningPodStep (podName : List Char) (status : Option (List Char))
    (logsResult : ShellResult) : PollAction :=
  if status == some "Running".data then .terminated
  else if status != some "ContainerCreating".data && status != some "Pending".data
      && status != some "Succeeded".data then
    .fatal (podFatalDiagnostic podName status logsResult)
  else .continuePolling 1000

/-! ## Port-forward readiness signal (`DebugService.startDebug`, lines 364-403) -/

/-- The regex `/Forwarding\s+from\s+127\.0\.0\.1:/` applied at the start of
the text. -/
def forwardingAt (cs : List Char) : Bool :=
  match dropLit "Forwarding".data cs with
  | none => false
  | some r1 =>
    match wsPlus r1 with
    | none => false
    | some r2 =>
      match dropLit "from".data r2 with
      | none => false
      | some r3 =>
        match wsPlus r3 with
        | none => false
        | some r4 => (dropLit "127.0.0.1:".data r4).isSome

/-- `forwardingRegExp.test(message)`: unanchored search over the text. -/
def forwardingTest : List Char → Bool
  | [] => false
  | cs@(_ :: rest) => forwardingAt cs || forwardingTest rest

/-- Number of times the stdout handler of `DebugService.startDebug` enters
its attach block over a sequence of emitted chunks: the handler closes over
`isStarted`, guards the block with
`if (!isStarted && forwardingRegExp.test(message))` and sets
`isStarted = true` inside the block. -/
def attachTriggerCount (isStarted : Bool) : List (List Char) → Nat
  | [] => 0
  | msg :: rest =>
    if !isStarted && forwardingTest msg then 1 + attachTriggerCount true rest
    else attachTriggerCount isStarted rest

/-! ## Local-port selection (`DebugService.createPortForward`, lines 332-350) -/

/-- `DebugService.createPortForward`, with `portfinder.getPortPromise`
modelled by `finder i p`: the result of the i-th awaited call (in program
order) when asked for a free port starting from `p`; the no-argument call
uses the library's default starting port 8000. Ports are modelled
numerically. Returns `(proxyDebugPort, proxyAppPort)`; `proxyAppPort` stays
`0` when no application port is forwarded. -/
def createPortForward (finder : Nat → Nat → Nat) (appPort : Option Nat) :
    Nat × Nat :=
  let proxyAppPort := match appPort with
    | some ap => finder 0 ap
    | none => 0
  let d0 := finder 1 8000
  let proxyDebugPort := if d0 = proxyAppPort then finder 2 (proxyAppPort + 1) else d0
  (proxyDebugPort, proxyAppPort)

/-! ## Deployment command (`DebugService.buildDockerImage` lines 200-206,
`DebugService.runDockerImageInK8s` lines 273-292) -/

/-- Image tag construction of `DebugService.buildDockerImage`:
`image = name + ":" + version`, prefixed with `dockerImageUser + "/"` when
the `vsdocker.imageUser` setting is truthy. -/
def buildImageTag (name version : List Char) (dockerImageUser : Option (List Char)) :
    List Char :=
  let image := name ++ ":".data ++ version
  if !jsFalsy dockerImageUser then dockerImageUser.getD [] ++ "/".data ++ image
  else image

/-- `DebugService.runDockerImageInK8s` line 274:
`let imageName = image.split(":")[0];`. -/
def imageNameOf (image : List Char) : List Char :=
  (splitOnChar ':' image).headD []

/-- `DebugService.runDockerImageInK8s` line 275:
`let imageUser = imageName.substring(0, imageName.lastIndexOf("/")+1);`
(`lastIndexOf` is -1 when no slash occurs, making `imageUser` empty). -/
def imageUserOf (image : List Char) : List Char :=
  match lastIndexOfChar '/' (imageNameOf image) with
  | some i => (imageNameOf image).take (i + 1)
  | none => []

/-- The word list `runCmd` of `DebugService.runDockerImageInK8s`
(lines 278-285); the pull-policy word is
`!imageUser ? " --image-pull-policy=Never" : ""`. Falsy exposed ports
contribute an empty word instead of `--port=...`. -/
def runDockerCmdWords (image deploymentName : List Char)
    (exposedPorts : List (Option (List Char)))
    (env : List (List Char × List Char)) : List (List Char) :=
  ["run".data, deploymentName, "--image=".data ++ image,
   if imageUserOf image = [] then " --image-pull-policy=Never".data else []]
  ++ exposedPorts.map (fun p => if !jsFalsy p then "--port=".data ++ p.getD [] else [])
  ++ env.map (fun kv => "--env=\"".data ++ kv.1 ++ "=".data ++ kv.2 ++ "\"".data)

/-- `runCmd.join(" ")` — the command line handed to `kubectl.invokeAsync`. -/
def runDockerCmdStr (image deploymentName : List Char)
    (exposedPorts : List (Option (List Char)))
    (env : List (List Char × List Char)) : List Char :=
  List.intercalate " ".data (runDockerCmdWords image deploymentName exposedPorts env)

/-! ## Flow boundary and cleanup (`DebugService.launchDebug` lines 58-107,
`DebugService.deleteResource` lines 419-428) -/

inductive DeleteOutcome where
  | loggedFailure
  | removed
deriving DecidableEq

/-- `DebugService.deleteResource`: a non-zero exit code from `kubectl delete`
is written to the output channel and the method returns; a zero exit logs
success and refreshes the explorer. No branch throws (`invokeAsync` resolves
with the command result for any exit code), so the result is always `.ok`. -/
def deleteResource (deleteExit : Int) : Except (List Char) DeleteOutcome :=
  if deleteExit ≠ 0 then .ok .loggedFailure else .ok .removed

/-- Outcomes of the external steps awaited by the try-block of the
`withProgress` callback in `DebugService.launchDebug`; `.error` means the
awaited step threw (non-zero build/run exit, malformed JSON, fatal pod
status, rejected attach). -/
structure FlowOracle where
  buildImage : Except (List Char) (List Char)
  runInK8s : Except (List Char) (List Char)
  findPods : Except (List Char) (List (List Char))
  waitPod : Except (List Char) Unit
  attachFlow : Except Unit Unit

/-- The try-block (lines 60-95): build, deploy, find the pod, wait for it,
create the port-forward (which only spawns and cannot throw) and start
debugging. Returns the block's outcome together with the value of the local
`appName` at the point the block ended, which the catch block consults. -/
def launchFlowBody (o : FlowOracle) : Except (List Char) Unit × Option (List Char) :=
  match o.buildImage with
  | .error e => (.error e, none)
  | .ok _image =>
    match o.runInK8s with
    | .error e => (.error e, none)
    | .ok appName =>
      match o.findPods with
      | .error e => (.error e, some appName)
      | .ok pods =>
        if pods.length = 0 then (.error "Failed to find debug pod.".data, some appName)
        else
          match o.waitPod with
          | .error e => (.error e, some appName)
          | .ok _ =>
            match o.attachFlow with
            | .error _ => (.error [], some appName)
            | .ok _ => (.ok (), some appName)

inductive FlowEnd where
  | completed
  | caughtLoggedAndCleaned (cleanupAttempted : Bool)
deriving DecidableEq

/-- The whole `withProgress` callback (lines 58-107): the catch block logs
the error and, when `appName` was assigned, awaits `deleteResource` inside a
nested try/catch whose catch does nothing. The callback never rethrows, so
its promise always resolves (`.ok`). -/
def launchFlowBoundary (o : FlowOracle) (deleteExit : Int) :
    Except (List Char) FlowEnd :=
  match launchFlowBody o with
  | (.ok _, _) => .ok .completed
  | (.error _e, appName) =>
    if !jsFalsy appName then
      match deleteResource deleteExit with
      | .ok _ => .ok (.caughtLoggedAndCleaned true)
      | .error _ => .ok (.caughtLoggedAndCleaned true)
    else .ok (.caughtLoggedAndCleaned false)

/-- Whether an `Except` value carries a result rather than a raised error. -/
def isOkE : Except ε α → Bool
  | .ok _ => true
  | .error _ => false

/-! ## Node file-based port resolution
(`NodeDockerResolver.resolvePortsFromFile`, debugInterfaces part lines 128-163) -/

/-- Match array of `searchLaunchArgs(nodeDebugOptsRegExp)` for
`/(--)?(debug|inspect)(=\S*)?/`: group 1 `(--)?`, group 2 `(debug|inspect)`,
group 3 `(=\S*)?`. The Dockerfile parser producing it
(dockerfileParser.ts) is an external collaborator of the embedded sources,
so the match result is taken as input. -/
structure NodeLaunchMatch where
  g1 : Option (List Char)
  g2 : List Char
  g3 : Option (List Char)
deriving DecidableEq

/-- Debug-port resolution from the launch-argument match (lines 135-143):
no capture for `(=\S*)?` maps `inspect` to "9229" and anything else (that is,
`debug`) to "5858"; an explicit address keeps the last colon-delimited
segment of `nodeCmd[3].substring(1)`. -/
def nodeResolveDebugFromMatch (nodeCmd : Option NodeLaunchMatch) :
    Option (List Char) :=
  match nodeCmd with
  | none => none
  | some m =>
    if jsFalsy m.g3 then
      some (if m.g2 = "inspect".data then "9229".data else "5858".data)
    else
      some ((splitOnChar ':' ((m.g3.getD []).drop 1)).getLastD [])

/-- JavaScript `\w` word character. -/
def isWordChar (c : Char) : Bool := c.isAlphanum || c = '_'

/-- The regex `/\$\{?(\w+)\}?/` tried at one position: a dollar sign, an
optional opening brace, then the greedy `\w+` capture (the optional closing
brace does not constrain the capture). -/
def placeholderAt (cs : List Char) : Option (List Char) :=
  match cs with
  | '$' :: rest =>
    let afterBrace := match rest with
      | '{' :: r => r
      | _ => rest
    let w := afterBrace.takeWhile isWordChar
    if w = [] then none else some w
  | _ => none

/-- Unanchored search for `/\$\{?(\w+)\}?/`, returning the group-1 capture
of the leftmost match (`none` = the regex does not match, so `.test` is
false). -/
def placeholderVar : List Char → Option (List Char)
  | [] => none
  | cs@(_ :: rest) =>
    match placeholderAt cs with
    | some w => some w
    | none => placeholderVar rest

/-- Everything `NodeDockerResolver.resolvePortsFromFile` produces: the
returned `PortInfo`, the assignments made into the caller's mutable `env`
map, and whether/with which candidates the app-port quick-pick was shown. -/
structure NodeFileResolution where
  portInfo : PortInfo
  envAdds : List (List Char × List Char)
  prompted : Bool
  promptCandidates : List (List Char)
deriving DecidableEq

/-- `NodeDockerResolver.resolvePortsFromFile` (lines 128-163). Inputs: the
`searchLaunchArgs(nodeDebugOptsRegExp)` result and `getExposedPorts()` from
the docker parser, and `pick`, the user's quick-pick answer as a function of
the offered candidates (`none` = dismissed; the dismissed value `undefined`
is coerced to the string "undefined" by the placeholder regex test, which
then fails for lack of a dollar sign). In the more-than-one-candidate
branch, `portInfo.app` is assigned only inside
`if (/\$\{?(\w+)\}?/.test(appPort))`: a selected value that is not a
placeholder token is dropped. -/
def nodeResolvePortsFromFile (nodeCmd : Option NodeLaunchMatch)
    (dockerExpose : List (List Char))
    (pick : List (List Char) → Option (List Char)) : NodeFileResolution :=
  let debug := nodeResolveDebugFromMatch nodeCmd
  if !jsFalsy debug && dockerExpose.length ≠ 0 then
    let excludes := ["9229".data, "5858".data, debug.getD []]
    let possiblePorts := dockerExpose.filter (fun p => !excludes.contains p)
    if possiblePorts.length = 1 then
      { portInfo := { debug := debug, app := jsIndex possiblePorts 0 },
        envAdds := [], prompted := false, promptCandidates := [] }
    else if possiblePorts.length > 1 then
      match (pick possiblePorts).bind placeholderVar with
      | some varName =>
        { portInfo := { debug := debug, app := some "9000".data },
          envAdds := [(varName, "9000".data)], prompted := true,
          promptCandidates := possiblePorts }
      | none =>
        { portInfo := { debug := debug, app := none },
          envAdds := [], prompted := true, promptCandidates := possiblePorts }
    else
      { portInfo := { debug := debug, app := none },
        envAdds := [], prompted := false, promptCandidates := [] }
  else
    { portInfo := { debug := debug, app := none },
      envAdds := [], prompted := false, promptCandidates := [] }

/-! ## Node live-process port resolution
(`NodeDockerResolver.resolvePortsFromPod`, lines 165-210) -/

/-- A successful match of `fullNodeDebugOptsRegExp =
/node(js)?\s+.*(--)?(debug|inspect)(=\S*)?/i` reduced to the two capture
groups the caller reads: `keyword` is group 3 (`debug|inspect`) as matched,
original case preserved; `eqTail` is group 4 (`=\S*`). A successful match of
this pattern always has `matches.length === 5` (one entry per group plus the
whole match, undefined groups included), so the caller's length check
filters nothing. -/
structure NodePodMatch where
  keyword : List Char
  eqTail : Option (List Char)
deriving DecidableEq

/-- Regex `(=\S*)?` at a position: present exactly when the text starts with
`=`; greedy over the following non-whitespace run. -/
def eqTailAt (cs : List Char) : Option (List Char) :=
  match cs with
  | '=' :: rest => some ('=' :: rest.takeWhile (fun c => !isWs c))
  | _ => none

/-- `(--)?(debug|inspect)(=\S*)?` tried at one position. The optional `--`
is always absorbed by the preceding greedy `.*` (a longer `.*` is preferred
by the backtracking order), so only the keyword position matters. -/
def keywordAt (cs : List Char) : Option NodePodMatch :=
  match dropCi "debug".data cs with
  | some (cap, rest) => some { keyword := cap, eqTail := eqTailAt rest }
  | none =>
    match dropCi "inspect".data cs with
    | some (cap, rest) => some { keyword := cap, eqTail := eqTailAt rest }
    | none => none

/-- The greedy `.*` tries the longest prefix first, so the committed match
uses the last position where `(debug|inspect)` matches. (The inputs here are
single lines of the process table, so `.` never has to skip a newline.) -/
def lastKeyword : List Char → Option NodePodMatch
  | [] => none
  | cs@(_ :: rest) =>
    match lastKeyword rest with
    | some m => some m
    | none => keywordAt cs

/-- `node(js)?\s+` tried at one position, greedy `(js)?` first; when the
`js` branch consumed text but no whitespace follows, the regex backtracks to
the bare `node` branch. -/
def nodeHeadAt (cs : List Char) : Option (List Char) :=
  match dropCi "node".data cs with
  | none => none
  | some (_, r1) =>
    match dropCi "js".data r1 with
    | some (_, r2) =>
      match wsPlus r2 with
      | some r3 => some r3
      | none => wsPlus r1
    | none => wsPlus r1

/-- Leftmost unanchored occurrence of `node(js)?\s+`, returning the
remainder the pattern tail runs on. A later start position could only search
a suffix of this remainder for the required keyword, so the whole regex
matches exactly when this leftmost remainder contains one. -/
def nodeHeadSearch : List Char → Option (List Char)
  | [] => none
  | cs@(_ :: rest) =>
    match nodeHeadAt cs with
    | some r => some r
    | none => nodeHeadSearch rest

/-- `cmd.match(fullNodeDebugOptsRegExp)` reduced to the groups the caller
reads. -/
def nodePodRegexMatch (cmd : List Char) : Option NodePodMatch :=
  (nodeHeadSearch cmd).bind lastKeyword

/-- Port extraction for one process's command text
(debugInterfaces part lines 188-197): on a match, a bare flag maps `inspect`
to "9229" and anything else to "5858"; an explicit address keeps the last
colon-delimited segment of `matches[4].substring(1)`. -/
def nodeDebugFromCmd (cmd : List Char) : Option (List Char) :=
  match nodePodRegexMatch cmd with
  | none => none
  | some m =>
    if jsFalsy m.eqTail then
      some (if m.keyword = "inspect".data then "9229".data else "5858".data)
    else
      some ((splitOnChar ':' ((m.eqTail.getD []).drop 1)).getLastD [])

/-- The scan over the `ps -ef` data lines (lines 181-198): `totalCol` is the
header row's column count; a data line whose column count is smaller is
skipped (`continue`); otherwise the command text is the tail columns from
index `totalCol - 1` joined by one space, and the first line whose command
matches yields the debug port (`break`). -/
def scanPsLines (totalCol : Nat) : List (List Char) → Option (List Char)
  | [] => none
  | line :: rest =>
    let cols := trimSplitWs line
    if cols.length < totalCol then scanPsLines totalCol rest
    else
      match nodeDebugFromCmd (List.intercalate " ".data (cols.drop (totalCol - 1))) with
      | some p => some p
      | none => scanPsLines totalCol rest

/-- The debug port the process-table scan assigns (lines 173-198):
`ps = execResult.stdout.split("\n")`, `totalCol` from the header row
`ps[0]`, and the loop over the data lines — run only when the `exec`
command exited 0. -/
def nodePodScanResult (execCode : Int) (execStdout : List Char) :
    Option (List Char) :=
  let ps := splitOnChar '\n' execStdout
  if execCode = 0 then scanPsLines (trimSplitWs (ps.headD [])).length (ps.drop 1)
  else none

/-- `NodeDockerResolver.resolvePortsFromPod` after the `exec` invocation
(lines 173-209): parse the listing, then fall back to the interactive
prompt when no (truthy) debug port was found —
`portInfo.debug = (input ? input.trim() : null)`. The result is always a
plain `PortInfo`; no branch raises. -/
def nodeResolvePortsFromPod (execCode : Int) (execStdout : List Char)
    (promptInput : Option (List Char)) : PortInfo :=
  let scanned := nodePodScanResult execCode execStdout
  if !jsFalsy scanned then { debug := scanned, app := none }
  else
    { debug := match promptInput with
        | none => none
        | some input => if input = [] then none else some (jsTrim input),
      app := none }


/-! ## Supporting lemmas -/

lemma jsSplitBy_ne_nil (p : Char → Bool) (cs : List Char) : jsSplitBy p cs ≠ [] := by
  cases cs with
  | nil => simp [jsSplitBy]
  | cons c rest =>
    simp only [jsSplitBy]
    cases h : jsSplitBy p rest with
    | nil => simp
    | cons cur parts => by_cases hp : p c <;> simp [hp]

lemma splitOnChar_head_no (c : Char) (xs : List Char) (h : c ∉ xs) :
    (splitOnChar c xs).headD [] = xs := by
  induction xs with
  | nil => rfl
  | cons x rest ih =>
    simp only [List.mem_cons, not_or] at h
    simp only [splitOnChar, jsSplitBy]
    cases h2 : jsSplitBy (fun y => y = c) rest with
    | nil => exact absurd h2 (jsSplitBy_ne_nil _ _)
    | cons cur parts =>
      have ihc : cur = rest := by
        have := ih h.2
        simp only [splitOnChar, h2, List.headD_cons] at this
        exact this
      have hx : ¬ (x = c) := fun hxx => h.1 hxx.symm
      simp [hx, ihc]

lemma splitOnChar_head_sep (c : Char) (xs ys : List Char) (h : c ∉ xs) :
    (splitOnChar c (xs ++ c :: ys)).headD [] = xs := by
  induction xs with
  | nil =>
    simp only [List.nil_append, splitOnChar, jsSplitBy]
    cases h2 : jsSplitBy (fun y => y = c) ys with
    | nil => simp
    | cons cur parts => simp
  | cons x rest ih =>
    simp only [List.mem_cons, not_or] at h
    simp only [List.cons_append, splitOnChar, jsSplitBy]
    cases h2 : jsSplitBy (fun y => y = c) (rest ++ c :: ys) with
    | nil => exact absurd h2 (jsSplitBy_ne_nil _ _)
    | cons cur parts =>
      have ihc : cur = rest := by
        have := ih h.2
        simp only [splitOnChar, h2, List.headD_cons] at this
        exact this
      have hx : ¬ (x = c) := fun hxx => h.1 hxx.symm
      simp [hx, ihc]

lemma lastIndexOfChar_not_mem (c : Char) (cs : List Char) (h : c ∉ cs) :
    lastIndexOfChar c cs = none := by
  induction cs with
  | nil => rfl
  | cons x rest ih =>
    simp only [List.mem_cons, not_or] at h
    have hx : ¬ (x = c) := fun hxx => h.1 hxx.symm
    unfold lastIndexOfChar
    rw [ih h.2]
    simp [hx]

lemma lastIndexOfChar_append (c : Char) (xs ys : List Char) (h : c ∉ ys) :
    lastIndexOfChar c (xs ++ c :: ys) = some xs.length := by
  induction xs with
  | nil =>
    show lastIndexOfChar c (c :: ys) = some 0
    unfold lastIndexOfChar
    rw [lastIndexOfChar_not_mem c ys h]
    simp
  | cons x rest ih =>
    show lastIndexOfChar c (x :: (rest ++ c :: ys)) = some (rest.length + 1)
    unfold lastIndexOfChar
    rw [ih]

/-- Helper for C10: taking one element past an appended prefix. -/
lemma take_append_succ (xs ys : List Char) :
    (xs ++ ys).take (xs.length + 1) = xs ++ ys.take 1 := by
  induction xs with
  | nil => rfl
  | cons x rest ih =>
    show (x :: (rest ++ ys)).take (rest.length + 1 + 1) = x :: (rest ++ ys.take 1)
    rw [List.take_succ_cons, ih]

/-- Helper for C6: once `isStarted` is set, the guarded attach block can
never run again. -/
lemma attachTriggerCount_true (msgs : List (List Char)) :
    attachTriggerCount true msgs = 0 := by
  induction msgs with
  | nil => rfl
  | cons msg rest ih => simp [attachTriggerCount, ih]

/-- C8: the live-process scan is total over the listing. A data line with
fewer whitespace-separated columns than the header is skipped outright, and
when the scan finds no match the strategy's result is a plain `PortInfo`
with the debug port unset (here with the fallback prompt dismissed) — the
embedded functions are total, so no input makes the scan raise. -/
theorem C8_live_process_scan_total (totalCol : Nat) (line : List Char)
    (rest : List (List Char)) (execCode : Int) (execStdout : List Char) :
    ((trimSplitWs line).length < totalCol →
      scanPsLines totalCol (line :: rest) = scanPsLines totalCol rest)
    ∧ (nodePodScanResult execCode execStdout = none →
       (nodeResolvePortsFromPod execCode execStdout none).debug = none) := by
  constructor
  · intro h
    conv_lhs => rw [scanPsLines]
    simp [h]
  · intro h
    unfold nodeResolvePortsFromPod
    rw [h]
    decide

/-- C8 witness: header with 8 columns, a 2-column data line, and a listing
with no matching process. -/
theorem C8_witness :
    scanPsLines 8 ["root 1".data] = scanPsLines 8 []
    ∧ (nodeResolvePortsFromPod 0 "UID PID CMD\nroot 1\nroot 2 bash".data none).debug
        = none :=
  ⟨(C8_live_process_scan_total 8 "root 1".data [] 0 "x".data).1 (by decide),
   (C8_live_process_scan_total 8 "root 1".data [] 0
       "UID PID CMD\nroot 1\nroot 2 bash".data).2 (by decide)⟩

/-- C10: the deployment command carries ` --image-pull-policy=Never` (as its
fourth word) exactly when no registry user is configured. With a configured
user the built tag is `user/name:version`, its name part contains a slash,
so `imageUser` is non-empty and the flag word is empty; without one the tag
is `name:version` with no slash, and the flag is emitted. -/
theorem C10_image_pull_policy_iff (user : Option (List Char))
    (name version deploymentName : List Char)
    (exposedPorts : List (Option (List Char))) (env : List (List Char × List Char))
    (hslash : '/' ∉ name) (hcolon : ':' ∉ name) (hucolon : ':' ∉ user.getD []) :
    jsIndex (runDockerCmdWords (buildImageTag name version user)
        deploymentName exposedPorts env) 3
      = some (if jsFalsy user then " --image-pull-policy=Never".data else []) := by
  cases hu : jsFalsy user with
  | true =>
    have himg : buildImageTag name version user = name ++ ':' :: version := by
      simp [buildImageTag, hu]
    have h2 : imageUserOf (name ++ ':' :: version) = [] := by
      unfold imageUserOf imageNameOf
      rw [splitOnChar_head_sep ':' name version hcolon,
        lastIndexOfChar_not_mem '/' name hslash]
    rw [himg]
    unfold runDockerCmdWords
    rw [h2]
    simp [jsIndex, hu]
  | false =>
    cases user with
    | none => simp [jsFalsy] at hu
    | some u =>
      have himg : buildImageTag name version (some u)
          = (u ++ '/' :: name) ++ ':' :: version := by
        simp [buildImageTag, hu, List.append_assoc]
      have hucn : ':' ∉ u ++ '/' :: name := by
        intro hmem
        rcases List.mem_append.mp hmem with hm | hm
        · exact hucolon hm
        · rcases List.mem_cons.mp hm with hm2 | hm2
          · exact absurd hm2 (by decide)
          · exact hcolon hm2
      have h2 : imageUserOf ((u ++ '/' :: name) ++ ':' :: version) = u ++ ['/'] := by
        unfold imageUserOf imageNameOf
        rw [splitOnChar_head_sep ':' (u ++ '/' :: name) version hucn,
          lastIndexOfChar_append '/' u name hslash]
        exact take_append_succ u ('/' :: name)
      rw [himg]
      unfold runDockerCmdWords
      rw [h2]
      simp [jsIndex, hu]

/-- C10 witness: with user "alice" the fourth word is empty; with no user it
is the pull-policy flag. -/
theorem C10_witness :
    jsIndex (runDockerCmdWords
        (buildImageTag "myapp".data "latest".data (some "alice".data))
        "myapp-debug-1".data [some "8080".data, some "5858".data] []) 3
      = some (if jsFalsy (some "alice".data)
          then " --image-pull-policy=Never".data else [])
    ∧ jsIndex (runDockerCmdWords
        (buildImageTag "myapp".data "latest".data none)
        "myapp-debug-1".data [some "8080".data, some "5858".data] []) 3
      = some (if jsFalsy (none : Option (List Char))
          then " --image-pull-policy=Never".data else []) :=
  ⟨C10_image_pull_policy_iff (some "alice".data) _ _ _ _ _
     (by decide) (by decide) (by decide),
   C10_image_pull_policy_iff none _ _ _ _ _
     (by decide) (by decide) (by decide)⟩

/-- C1 counterexample: a launch-mode resolution with the debug port set and
the application port unset does not proceed to build and deploy — the
orchestrator aborts at the application-port validation. -/
theorem C1_counterexample :
    launchPortValidation { debug := some "5005".data, app := none }
      ≠ LaunchGate.proceedToBuild := by decide

/-- C1 (amended): in launch mode an absent application port is itself a hard
failure: for every resolution returning a non-empty `debugPort` and no
`appPort`, `DebugService.launchDebug` aborts at port validation with the
application-port error, before any build or deploy step. -/
theorem C1_absent_app_port_aborts (d : List Char) (h : d ≠ []) :
    launchPortValidation { debug := some d, app := none }
      = LaunchGate.abortNoAppPort := by
  simp [launchPortValidation, jsFalsy, h]

/-- C1 witness. -/
theorem C1_witness :
    "5005".data ≠ [] ∧
      launchPortValidation { debug := some "5005".data, app := none }
        = LaunchGate.abortNoAppPort :=
  ⟨by decide, C1_absent_app_port_aborts "5005".data (by decide)⟩

/-- C2: the attach result is NOT consulted. `startDebugging` is called
without `await`, so `success` holds a promise object, which is truthy; even
when the provider's attach eventually reports failure (`false`), the stdout
handler takes the `resolve()` path and never kills the port-forward
subprocess. This evaluates the code at the failing input. -/
theorem C2_attach_failure_not_consulted :
    startDebugAttachStep false = AttachStepOutcome.resolvedWithoutKill := by
  decide

/-- C3: evaluating `NodeDockerResolver.resolvePortsFromFile` with exposed
ports ["5858","3000","4000"], a launch line resolving the debug port to
"5858" (bare `--debug`), and a user who selects "3000" at the prompt: the
strategy does prompt with the remaining candidates ["3000","4000"], but the
returned `PortInfo` has `app = null` — the selected non-placeholder value is
dropped, contradicting the claim that `appPort = "3000"` is returned. -/
theorem C3_selected_port_dropped :
    nodeResolvePortsFromFile
        (some { g1 := some "--".data, g2 := "debug".data, g3 := none })
        ["5858".data, "3000".data, "4000".data]
        (fun _ => some "3000".data)
      = { portInfo := { debug := some "5858".data, app := none },
          envAdds := [], prompted := true,
          promptCandidates := ["3000".data, "4000".data] } := by decide

/-- C4: evaluating the `exec` command construction with a selected
container: the `-c` argument is the verbatim text of the quoted
(non-template) string literal, not the selected container's name. -/
theorem C4_exec_container_literal :
    execPsCommand "mypod".data (some "sidecar".data)
        = "exec mypod -c $\x7bselectedContainer\x7d -- ps -ef".data
      ∧ execPsCommand "mypod".data (some "sidecar".data)
        ≠ "exec mypod -c sidecar -- ps -ef".data := by decide

/-- C5: pod-readiness polling. `Running` terminates the wait; each of
`ContainerCreating`, `Pending`, `Succeeded` continues polling after a
1000 ms delay; any other status is fatal and the diagnostic ends with the
pod's logs (here: the logs query succeeded, exit code 0). -/
theorem C5_pod_status_polling (podName status logsOut logsErr : List Char) :
    waitForRunningPodStep podName (some "Running".data) ⟨0, logsOut, logsErr⟩
        = PollAction.terminated
    ∧ waitForRunningPodStep podName (some "ContainerCreating".data) ⟨0, logsOut, logsErr⟩
        = PollAction.continuePolling 1000
    ∧ waitForRunningPodStep podName (some "Pending".data) ⟨0, logsOut, logsErr⟩
        = PollAction.continuePolling 1000
    ∧ waitForRunningPodStep podName (some "Succeeded".data) ⟨0, logsOut, logsErr⟩
        = PollAction.continuePolling 1000
    ∧ (status ≠ "Running".data → status ≠ "ContainerCreating".data →
       status ≠ "Pending".data → status ≠ "Succeeded".data →
       ∃ pre, waitForRunningPodStep podName (some status) ⟨0, logsOut, logsErr⟩
         = PollAction.fatal (pre ++ logsOut)) := by
  refine ⟨rfl, rfl, rfl, rfl, fun h1 h2 h3 h4 => ?_⟩
  refine ⟨"Failed to start the pod \"".data ++ podName
    ++ "\", it's status is \"".data ++ status
    ++ "\".\n\n                See more details from the pod logs:\n".data, ?_⟩
  simp [waitForRunningPodStep, podFatalDiagnostic, h1, h2, h3, h4]

/-- C5 witness. -/
theorem C5_witness :
    waitForRunningPodStep "p".data (some "Pending".data) ⟨0, "LOGS".data, []⟩
        = PollAction.continuePolling 1000
    ∧ ∃ pre, waitForRunningPodStep "p".data (some "CrashLoopBackOff".data)
          ⟨0, "LOGS".data, []⟩
        = PollAction.fatal (pre ++ "LOGS".data) :=
  ⟨(C5_pod_status_polling "p".data "x".data "LOGS".data []).2.1,
   (C5_pod_status_polling "p".data "CrashLoopBackOff".data "LOGS".data []).2.2.2.2
     (by decide) (by decide) (by decide) (by decide)⟩

/-- C6: over every sequence of chunks emitted on the port-forward
subprocess's stdout, the attach block of `DebugService.startDebug` runs
exactly once when some chunk matches the forwarding readiness pattern and
never otherwise — in particular the first matching chunk triggers it and
every later matching chunk (duplicates included) is ignored. -/
theorem C6_attach_triggered_at_most_once (msgs : List (List Char)) :
    attachTriggerCount false msgs
      = if msgs.any forwardingTest then 1 else 0 := by
  induction msgs with
  | nil => rfl
  | cons msg rest ih =>
    by_cases hm : forwardingTest msg
    · simp [attachTriggerCount, hm, attachTriggerCount_true]
    · simp [attachTriggerCount, hm, ih]

/-- C7: cleanup is best-effort and non-propagating. `deleteResource` returns
normally for every exit code of the delete command (logging the non-zero
case), so a second cleanup call for the same resource raises nothing, and
the `withProgress` callback of `launchDebug` resolves for every combination
of step outcomes — no failure in the orchestrated launch flow propagates. -/
theorem C7_cleanup_best_effort (o : FlowOracle) (deleteExit e1 e2 : Int) :
    isOkE (launchFlowBoundary o deleteExit) = true
    ∧ isOkE (deleteResource e1) = true
    ∧ isOkE (deleteResource e2) = true
    ∧ (e2 ≠ 0 → deleteResource e2 = Except.ok DeleteOutcome.loggedFailure) := by
  refine ⟨?_, ?_, ?_, fun h => ?_⟩
  · unfold launchFlowBoundary
    split
    · rfl
    · split
      · split
        · rfl
        · rfl
      · rfl
  · unfold deleteResource
    split <;> rfl
  · unfold deleteResource
    split <;> rfl
  · simp [deleteResource, h]

/-- C7 witness: a flow whose pod query fails after the deployment was
created, with a failing (exit 1) cleanup delete. -/
theorem C7_witness :
    isOkE (launchFlowBoundary
        { buildImage := Except.ok "img".data, runInK8s := Except.ok "app".data,
          findPods := Except.error "kubectl command failed".data,
          waitPod := Except.ok (), attachFlow := Except.ok () } 1) = true
    ∧ isOkE (deleteResource 0) = true
    ∧ isOkE (deleteResource 1) = true
    ∧ deleteResource 1 = Except.ok DeleteOutcome.loggedFailure :=
  have t := C7_cleanup_best_effort
    { buildImage := Except.ok "img".data, runInK8s := Except.ok "app".data,
      findPods := Except.error "kubectl command failed".data,
      waitPod := Except.ok (), attachFlow := Except.ok () } 1 0 1
  ⟨t.1, t.2.1, t.2.2.1, t.2.2.2 (by decide)⟩

/-- C9: whenever an application port is forwarded, the local debug port and
the local application port chosen by `DebugService.createPortForward` are
distinct, provided the free-port finder never returns a port smaller than
the requested starting port. -/
theorem C9_local_ports_distinct (finder : Nat → Nat → Nat)
    (hfinder : ∀ i p, p ≤ finder i p) (ap : Nat) :
    (createPortForward finder (some ap)).1
      ≠ (createPortForward finder (some ap)).2 := by
  by_cases h : finder 1 8000 = finder 0 ap
  · have h2 := hfinder 2 (finder 0 ap + 1)
    simp [createPortForward, h]
    omega
  · simp [createPortForward, h]

/-- C9 witness: the identity finder returns exactly the requested port. -/
theorem C9_witness :
    (createPortForward (fun _ p => p) (some 3000)).1
      ≠ (createPortForward (fun _ p => p) (some 3000)).2 :=
  C9_local_ports_distinct (fun _ p => p) (fun _ p => Nat.le_refl p) 3000
